import Mathlib

/-!
Verification of the statistics aggregation core of the 589 Scouting Backend.

The embedding below translates the statistics route module (the file defining
`calculateTeamStatistics`, `calculateStatsFromMatches`, `updateTeamStatsPercentage`,
`updateTeamStatsFraction`, `updateTeamRankings`, `initializeEmptyStatistics` and the
three express routes) together with the match CRUD route module (the file defining
`router.post('/')`, `router.put('/:id')`, `router.delete('/:id')` and its local
placeholder `calculateTeamStatistics`), and the column defaults of the aggregate
tables from `database-schema-seasons.sql`.

JavaScript numbers are modelled as `ℚ` where the source divides, and as `Nat` for
the integer counters.  Nullable row fields are `Option`; the source's `x || 0`
coercion is `Option.getD 0`.  Database upserts with `onConflict: 'team_id,regional_id'`
are modelled per key as partial-field updates: an insert takes the DDL column
defaults for absent payload fields, a conflicting update overwrites exactly the
payload fields.  Timestamps (`last_calculated`, set from the wall clock) are threaded
as an explicit `Nat` parameter.
-/

namespace Scouting

/-- One row of the `matches` table, restricted to the columns read by the
accumulation pass of `calculateStatsFromMatches` (statistics module, lines 45-87).
Nullable columns are `Option`. -/
structure MatchRow where
  starting_position : Option String
  auto_taxi : Bool
  auto_m1 : Option Nat
  auto_m2 : Option Nat
  auto_m3 : Option Nat
  auto_m4 : Option Nat
  auto_m5 : Option Nat
  auto_s1 : Option Nat
  auto_s2 : Option Nat
  auto_s3 : Option Nat
  auto_r : Option Nat
  teleop_amp_attempts : Option Nat
  teleop_amp_scored : Option Nat
  teleop_speaker_attempts : Option Nat
  teleop_speaker_scored : Option Nat
  teleop_ground_intake : Option Nat
  teleop_source_intake : Option Nat
  endgame_climb : Option String
  endgame_trap_count : Option Nat
  driver_rating : Option Nat
  robot_disabled : Bool
  played_defense : Bool


/-- The mutable `counters` object of `calculateStatsFromMatches` (lines 37-43),
flattened: `counters.pregame.amp` becomes `pregame_amp`, and so on. -/
structure Counters where
  pregame_amp : Nat
  pregame_middle : Nat
  pregame_source : Nat
  auto_taxi : Nat
  auto_m1 : Nat
  auto_m2 : Nat
  auto_m3 : Nat
  auto_m4 : Nat
  auto_m5 : Nat
  auto_s1 : Nat
  auto_s2 : Nat
  auto_s3 : Nat
  auto_r : Nat
  teleop_amp_attempts : Nat
  teleop_amp_scored : Nat
  teleop_speaker_attempts : Nat
  teleop_speaker_scored : Nat
  teleop_ground : Nat
  teleop_source : Nat
  climb_nothing : Nat
  climb_park : Nat
  climb_single : Nat
  climb_double : Nat
  climb_triple : Nat
  trap_zero : Nat
  trap_one : Nat
  trap_two : Nat
  trap_three : Nat
  postgame_driver_total : Nat
  postgame_disabled : Nat
  postgame_defense : Nat


/-- The all-zero initial value of `counters` (lines 37-43). -/
def initCounters : Counters :=
  ⟨0, 0, 0, 0, 0, 0, 0, 0, 0, 0, 0, 0, 0, 0, 0, 0, 0, 0, 0, 0, 0, 0, 0, 0, 0, 0, 0, 0, 0, 0, 0⟩

/-- Lines 46-48: the `if/else if` chain on `match.starting_position`. -/
def applyPregame (c : Counters) (m : MatchRow) : Counters :=
  if m.starting_position = some "Amp" then { c with pregame_amp := c.pregame_amp + 1 }
  else if m.starting_position = some "Middle" then { c with pregame_middle := c.pregame_middle + 1 }
  else if m.starting_position = some "Source" then { c with pregame_source := c.pregame_source + 1 }
  else c

/-- Lines 50-59: `if (match.auto_taxi) counters.auto.taxi++` followed by the
`counters.auto.x += match.auto_x || 0` accumulations (the conditional increment is
written as adding an indicator). -/
def applyAuto (c : Counters) (m : MatchRow) : Counters :=
  { c with
    auto_taxi := c.auto_taxi + (if m.auto_taxi then 1 else 0)
    auto_m1 := c.auto_m1 + m.auto_m1.getD 0
    auto_m2 := c.auto_m2 + m.auto_m2.getD 0
    auto_m3 := c.auto_m3 + m.auto_m3.getD 0
    auto_m4 := c.auto_m4 + m.auto_m4.getD 0
    auto_m5 := c.auto_m5 + m.auto_m5.getD 0
    auto_s1 := c.auto_s1 + m.auto_s1.getD 0
    auto_s2 := c.auto_s2 + m.auto_s2.getD 0
    auto_s3 := c.auto_s3 + m.auto_s3.getD 0
    auto_r := c.auto_r + m.auto_r.getD 0 }

/-- Lines 61-66: the teleop `+=` accumulations. -/
def applyTeleop (c : Counters) (m : MatchRow) : Counters :=
  { c with
    teleop_amp_attempts := c.teleop_amp_attempts + m.teleop_amp_attempts.getD 0
    teleop_amp_scored := c.teleop_amp_scored + m.teleop_amp_scored.getD 0
    teleop_speaker_attempts := c.teleop_speaker_attempts + m.teleop_speaker_attempts.getD 0
    teleop_speaker_scored := c.teleop_speaker_scored + m.teleop_speaker_scored.getD 0
    teleop_ground := c.teleop_ground + m.teleop_ground_intake.getD 0
    teleop_source := c.teleop_source + m.teleop_source_intake.getD 0 }

/-- Lines 68-74: the `switch (match.endgame_climb)` with one `case` per climb
variant and no `default` (an unmatched or absent value increments nothing). -/
def applyClimb (c : Counters) (m : MatchRow) : Counters :=
  if m.endgame_climb = some "Nothing" then { c with climb_nothing := c.climb_nothing + 1 }
  else if m.endgame_climb = some "Park" then { c with climb_park := c.climb_park + 1 }
  else if m.endgame_climb = some "Single Climb" then { c with climb_single := c.climb_single + 1 }
  else if m.endgame_climb = some "Double Climb" then { c with climb_double := c.climb_double + 1 }
  else if m.endgame_climb = some "Triple Climb" then { c with climb_triple := c.climb_triple + 1 }
  else c

/-- Lines 76-82: `const trapCount = match.endgame_trap_count || 0` then the
`switch (trapCount)` over 0,1,2,3 with no `default`. -/
def applyTrap (c : Counters) (m : MatchRow) : Counters :=
  if m.endgame_trap_count.getD 0 = 0 then { c with trap_zero := c.trap_zero + 1 }
  else if m.endgame_trap_count.getD 0 = 1 then { c with trap_one := c.trap_one + 1 }
  else if m.endgame_trap_count.getD 0 = 2 then { c with trap_two := c.trap_two + 1 }
  else if m.endgame_trap_count.getD 0 = 3 then { c with trap_three := c.trap_three + 1 }
  else c

/-- Lines 84-86: the postgame accumulations (conditional increments written as
indicator additions). -/
def applyPostgame (c : Counters) (m : MatchRow) : Counters :=
  { c with
    postgame_driver_total := c.postgame_driver_total + m.driver_rating.getD 0
    postgame_disabled := c.postgame_disabled + (if m.robot_disabled then 1 else 0)
    postgame_defense := c.postgame_defense + (if m.played_defense then 1 else 0) }

/-- One iteration of the `matches.forEach` body (lines 45-87), as the in-order
composition of its five statement groups. -/
def accumMatch (c : Counters) (m : MatchRow) : Counters :=
  applyPostgame (applyTrap (applyClimb (applyTeleop (applyAuto (applyPregame c m) m) m) m) m) m

/-- The whole accumulation pass: `matches.forEach(...)` starting from the zero
counters. -/
def accumulateCounters (ms : List MatchRow) : Counters :=
  ms.foldl accumMatch initCounters

/-- Builds the display string `a + "/" + b`, as the template literals
`` `${a}/${b}` `` in the fractions record do. -/
def fracStr (a b : Nat) : String :=
  toString a ++ "/" ++ toString b

/-- The `percentages` record returned by `calculateStatsFromMatches` (lines 90-120).
Each field keeps the source's expression shape: `(count / totalMatches) * 100`,
with `Math.min(.., 100)` on the nine auto note positions, the two conditional
accuracy ratios, and the rating average. -/
structure Percentages where
  pregame_amp_percent : ℚ
  pregame_middle_percent : ℚ
  pregame_source_percent : ℚ
  auto_taxi_percent : ℚ
  auto_m1_percent : ℚ
  auto_m2_percent : ℚ
  auto_m3_percent : ℚ
  auto_m4_percent : ℚ
  auto_m5_percent : ℚ
  auto_s1_percent : ℚ
  auto_s2_percent : ℚ
  auto_s3_percent : ℚ
  auto_r_percent : ℚ
  teleop_amp_percent : ℚ
  teleop_speaker_percent : ℚ
  teleop_ground_intake_percent : ℚ
  teleop_source_intake_percent : ℚ
  endgame_nothing_percent : ℚ
  endgame_park_percent : ℚ
  endgame_single_climb_percent : ℚ
  endgame_double_climb_percent : ℚ
  endgame_triple_climb_percent : ℚ
  endgame_0_trap_percent : ℚ
  endgame_1_trap_percent : ℚ
  endgame_2_trap_percent : ℚ
  endgame_3_trap_percent : ℚ
  postgame_driver_rating_avg : ℚ
  postgame_disabled_percent : ℚ
  postgame_defense_percent : ℚ


/-- The `fractions` record returned by `calculateStatsFromMatches` (lines 121-157). -/
structure Fractions where
  pregame_amp_fraction : String
  pregame_middle_fraction : String
  pregame_source_fraction : String
  pregame_total : Nat
  auto_taxi_fraction : String
  auto_m1_fraction : String
  auto_m2_fraction : String
  auto_m3_fraction : String
  auto_m4_fraction : String
  auto_m5_fraction : String
  auto_s1_fraction : String
  auto_s2_fraction : String
  auto_s3_fraction : String
  auto_r_fraction : String
  auto_total : Nat
  teleop_amp_fraction : String
  teleop_speaker_fraction : String
  teleop_ground_intake_fraction : String
  teleop_source_intake_fraction : String
  teleop_amp_total : Nat
  teleop_intake_total : Nat
  teleop_speaker_total : Nat
  endgame_nothing_fraction : String
  endgame_park_fraction : String
  endgame_single_climb_fraction : String
  endgame_double_climb_fraction : String
  endgame_triple_climb_fraction : String
  endgame_0_trap_fraction : String
  endgame_1_trap_fraction : String
  endgame_2_trap_fraction : String
  endgame_3_trap_fraction : String
  endgame_total : Nat
  postgame_disabled_fraction : String
  postgame_defense_fraction : String
  postgame_total : Nat


/-- The `scores` record returned by `calculateStatsFromMatches` (lines 158-166),
without the `overall_score` getter (modelled as `Scores.overall_score` below). -/
structure Scores where
  auto_score : Nat
  teleop_score : Nat
  endgame_score : Nat


/-- The `get overall_score()` getter of the scores record (line 165):
`this.auto_score + this.teleop_score + this.endgame_score`. -/
def Scores.overall_score (s : Scores) : Nat :=
  s.auto_score + s.teleop_score + s.endgame_score

/-- The full return value of `calculateStatsFromMatches`. -/
structure Stats where
  percentages : Percentages
  fractions : Fractions
  scores : Scores


/-- Lines 36-168: `calculateStatsFromMatches(matches, totalMatches)`.  Division is
exact rational division; `Math.min(x, 100)` is `min x 100`. -/
def calculateStatsFromMatches (ms : List MatchRow) (totalMatches : Nat) : Stats :=
  let c := ms.foldl accumMatch initCounters
  let total : ℚ := totalMatches
  { percentages :=
      { pregame_amp_percent := (c.pregame_amp : ℚ) / total * 100
        pregame_middle_percent := (c.pregame_middle : ℚ) / total * 100
        pregame_source_percent := (c.pregame_source : ℚ) / total * 100
        auto_taxi_percent := (c.auto_taxi : ℚ) / total * 100
        auto_m1_percent := min ((c.auto_m1 : ℚ) / total * 100) 100
        auto_m2_percent := min ((c.auto_m2 : ℚ) / total * 100) 100
        auto_m3_percent := min ((c.auto_m3 : ℚ) / total * 100) 100
        auto_m4_percent := min ((c.auto_m4 : ℚ) / total * 100) 100
        auto_m5_percent := min ((c.auto_m5 : ℚ) / total * 100) 100
        auto_s1_percent := min ((c.auto_s1 : ℚ) / total * 100) 100
        auto_s2_percent := min ((c.auto_s2 : ℚ) / total * 100) 100
        auto_s3_percent := min ((c.auto_s3 : ℚ) / total * 100) 100
        auto_r_percent := min ((c.auto_r : ℚ) / total * 100) 100
        teleop_amp_percent :=
          if 0 < c.teleop_amp_attempts
          then (c.teleop_amp_scored : ℚ) / (c.teleop_amp_attempts : ℚ) * 100 else 0
        teleop_speaker_percent :=
          if 0 < c.teleop_speaker_attempts
          then (c.teleop_speaker_scored : ℚ) / (c.teleop_speaker_attempts : ℚ) * 100 else 0
        teleop_ground_intake_percent := (c.teleop_ground : ℚ) / total * 100
        teleop_source_intake_percent := (c.teleop_source : ℚ) / total * 100
        endgame_nothing_percent := (c.climb_nothing : ℚ) / total * 100
        endgame_park_percent := (c.climb_park : ℚ) / total * 100
        endgame_single_climb_percent := (c.climb_single : ℚ) / total * 100
        endgame_double_climb_percent := (c.climb_double : ℚ) / total * 100
        endgame_triple_climb_percent := (c.climb_triple : ℚ) / total * 100
        endgame_0_trap_percent := (c.trap_zero : ℚ) / total * 100
        endgame_1_trap_percent := (c.trap_one : ℚ) / total * 100
        endgame_2_trap_percent := (c.trap_two : ℚ) / total * 100
        endgame_3_trap_percent := (c.trap_three : ℚ) / total * 100
        postgame_driver_rating_avg := (c.postgame_driver_total : ℚ) / total
        postgame_disabled_percent := (c.postgame_disabled : ℚ) / total * 100
        postgame_defense_percent := (c.postgame_defense : ℚ) / total * 100 }
    fractions :=
      { pregame_amp_fraction := fracStr c.pregame_amp totalMatches
        pregame_middle_fraction := fracStr c.pregame_middle totalMatches
        pregame_source_fraction := fracStr c.pregame_source totalMatches
        pregame_total := totalMatches
        auto_taxi_fraction := fracStr c.auto_taxi totalMatches
        auto_m1_fraction := fracStr c.auto_m1 totalMatches
        auto_m2_fraction := fracStr c.auto_m2 totalMatches
        auto_m3_fraction := fracStr c.auto_m3 totalMatches
        auto_m4_fraction := fracStr c.auto_m4 totalMatches
        auto_m5_fraction := fracStr c.auto_m5 totalMatches
        auto_s1_fraction := fracStr c.auto_s1 totalMatches
        auto_s2_fraction := fracStr c.auto_s2 totalMatches
        auto_s3_fraction := fracStr c.auto_s3 totalMatches
        auto_r_fraction := fracStr c.auto_r totalMatches
        auto_total := c.auto_m1 + c.auto_m2 + c.auto_m3 + c.auto_m4 + c.auto_m5 +
          c.auto_s1 + c.auto_s2 + c.auto_s3 + c.auto_r
        teleop_amp_fraction := fracStr c.teleop_amp_scored c.teleop_amp_attempts
        teleop_speaker_fraction := fracStr c.teleop_speaker_scored c.teleop_speaker_attempts
        teleop_ground_intake_fraction := fracStr c.teleop_ground totalMatches
        teleop_source_intake_fraction := fracStr c.teleop_source totalMatches
        teleop_amp_total := c.teleop_amp_scored
        teleop_intake_total := c.teleop_ground + c.teleop_source
        teleop_speaker_total := c.teleop_speaker_scored
        endgame_nothing_fraction := fracStr c.climb_nothing totalMatches
        endgame_park_fraction := fracStr c.climb_park totalMatches
        endgame_single_climb_fraction := fracStr c.climb_single totalMatches
        endgame_double_climb_fraction := fracStr c.climb_double totalMatches
        endgame_triple_climb_fraction := fracStr c.climb_triple totalMatches
        endgame_0_trap_fraction := fracStr c.trap_zero totalMatches
        endgame_1_trap_fraction := fracStr c.trap_one totalMatches
        endgame_2_trap_fraction := fracStr c.trap_two totalMatches
        endgame_3_trap_fraction := fracStr c.trap_three totalMatches
        endgame_total := totalMatches
        postgame_disabled_fraction := fracStr c.postgame_disabled totalMatches
        postgame_defense_fraction := fracStr c.postgame_defense totalMatches
        postgame_total := totalMatches }
    scores :=
      { auto_score := (c.auto_m1 + c.auto_m2 + c.auto_m3 + c.auto_m4 + c.auto_m5) * 2 +
          (c.auto_s1 + c.auto_s2 + c.auto_s3) * 5 + c.auto_r * 3 + c.auto_taxi * 2
        teleop_score := c.teleop_amp_scored * 1 + c.teleop_speaker_scored * 2
        endgame_score := c.climb_single * 3 + c.climb_double * 10 + c.climb_triple * 20 +
          c.trap_one * 5 + c.trap_two * 10 + c.trap_three * 15 } }

/-- One `team_stats_percentage` row for a fixed (team, regional) key: the derived
values plus the `last_calculated` timestamp. -/
structure PercRow where
  vals : Percentages
  last_calculated : Nat

/-- One `team_stats_fraction` row for a fixed (team, regional) key. -/
structure FracRow where
  vals : Fractions
  last_calculated : Nat

/-- One `team_rankings` row for a fixed (team, regional) key (score and count
columns; the nullable `*_rank` columns are never written by the aggregator). -/
structure RankRow where
  overall_score : Nat
  auto_score : Nat
  teleop_score : Nat
  endgame_score : Nat
  matches_played : Nat
  last_calculated : Nat

/-- The `DEFAULT 0` column values of `team_stats_percentage` in
`database-schema-seasons.sql` (lines 113-162), used when an upsert inserts a fresh
row without percentage fields in its payload. -/
def defaultPercentages : Percentages :=
  ⟨0, 0, 0, 0, 0, 0, 0, 0, 0, 0, 0, 0, 0, 0, 0, 0, 0, 0, 0, 0, 0, 0, 0, 0, 0, 0, 0, 0, 0⟩

/-- The default column values of `team_stats_fraction` in
`database-schema-seasons.sql` (lines 164-218): every fraction column defaults to
the text `0/0` and every total column to 0. -/
def defaultFractions : Fractions :=
  { pregame_amp_fraction := "0/0", pregame_middle_fraction := "0/0"
    pregame_source_fraction := "0/0", pregame_total := 0
    auto_taxi_fraction := "0/0", auto_m1_fraction := "0/0", auto_m2_fraction := "0/0"
    auto_m3_fraction := "0/0", auto_m4_fraction := "0/0", auto_m5_fraction := "0/0"
    auto_s1_fraction := "0/0", auto_s2_fraction := "0/0", auto_s3_fraction := "0/0"
    auto_r_fraction := "0/0", auto_total := 0
    teleop_amp_fraction := "0/0", teleop_speaker_fraction := "0/0"
    teleop_ground_intake_fraction := "0/0", teleop_source_intake_fraction := "0/0"
    teleop_amp_total := 0, teleop_intake_total := 0, teleop_speaker_total := 0
    endgame_nothing_fraction := "0/0", endgame_park_fraction := "0/0"
    endgame_single_climb_fraction := "0/0", endgame_double_climb_fraction := "0/0"
    endgame_triple_climb_fraction := "0/0", endgame_0_trap_fraction := "0/0"
    endgame_1_trap_fraction := "0/0", endgame_2_trap_fraction := "0/0"
    endgame_3_trap_fraction := "0/0", endgame_total := 0
    postgame_disabled_fraction := "0/0", postgame_defense_fraction := "0/0"
    postgame_total := 0 }

/-- The three aggregate rows held by the store for one (team, regional) key:
`none` models a key with no row yet. -/
structure AggState where
  perc : Option PercRow
  frac : Option FracRow
  rank : Option RankRow

/-- Lines 193-199, `initializeEmptyStatistics(teamId, regionalId)`: three upserts
whose payloads carry only the key, `last_calculated` (and, for `team_rankings`,
`matches_played: 0`).  On insert the remaining columns take the schema defaults;
on a key conflict only the payload columns are overwritten, so previously stored
values of all other columns survive. -/
def initializeEmptyStatistics (t : Nat) (s : AggState) : AggState :=
  { perc := some (match s.perc with
      | none => { vals := defaultPercentages, last_calculated := t }
      | some r => { vals := r.vals, last_calculated := t })
    frac := some (match s.frac with
      | none => { vals := defaultFractions, last_calculated := t }
      | some r => { vals := r.vals, last_calculated := t })
    rank := some (match s.rank with
      | none => { overall_score := 0, auto_score := 0, teleop_score := 0,
                  endgame_score := 0, matches_played := 0, last_calculated := t }
      | some r => { r with matches_played := 0, last_calculated := t }) }

/-- Lines 7-34, `calculateTeamStatistics(teamId, regionalId)` after a successful
match query returning `ms`: on an empty set it calls `initializeEmptyStatistics`
(lines 17-20); otherwise it computes `calculateStatsFromMatches(matches,
matches.length)` and runs the three full-payload upserts
`updateTeamStatsPercentage`, `updateTeamStatsFraction`, `updateTeamRankings`
(lines 170-191), each of which supplies every non-key column and therefore fully
replaces any prior row for the key. -/
def calculateTeamStatistics (t : Nat) (ms : List MatchRow) (s : AggState) : AggState :=
  if ms.isEmpty then initializeEmptyStatistics t s
  else
    let stats := calculateStatsFromMatches ms ms.length
    { perc := some { vals := stats.percentages, last_calculated := t }
      frac := some { vals := stats.fractions, last_calculated := t }
      rank := some { overall_score := stats.scores.overall_score
                     auto_score := stats.scores.auto_score
                     teleop_score := stats.scores.teleop_score
                     endgame_score := stats.scores.endgame_score
                     matches_played := ms.length
                     last_calculated := t } }

/-- Sets the `last_calculated` stamp of an optional percentage row to 0, to state
equalities that hold apart from the recomputation timestamp. -/
def erasePercTime : Option PercRow → Option PercRow
  | none => none
  | some r => some { r with last_calculated := 0 }

/-- Sets the `last_calculated` stamp of an optional fraction row to 0. -/
def eraseFracTime : Option FracRow → Option FracRow
  | none => none
  | some r => some { r with last_calculated := 0 }

/-- Sets the `last_calculated` stamp of an optional ranking row to 0. -/
def eraseRankTime : Option RankRow → Option RankRow
  | none => none
  | some r => some { r with last_calculated := 0 }

/-- Erases all three recomputation timestamps of an aggregate state. -/
def eraseTime (s : AggState) : AggState :=
  { perc := erasePercTime s.perc, frac := eraseFracTime s.frac, rank := eraseRankTime s.rank }

/-- One row of the `team_statistics` table written by the match route module's own
local `calculateTeamStatistics` placeholder (match routes file, lines 495-505). -/
structure TeamStatisticsRow where
  stat_category : String
  stat_name : String
  stat_value : ℚ
  stat_fraction : String
  total_matches : Nat

/-- Match routes file, lines 475-506: the router-local `calculateTeamStatistics`
placeholder.  It returns early (writing nothing) when the team has no matches;
otherwise it upserts a single `taxi_rate` row into `team_statistics`.  It never
touches `team_stats_percentage`, `team_stats_fraction` or `team_rankings`. -/
def placeholderCalculateTeamStatistics (ms : List MatchRow) : Option TeamStatisticsRow :=
  if ms.isEmpty then none
  else
    let totalMatches := ms.length
    let taxiCount := (ms.filter (fun m => m.auto_taxi)).length
    some { stat_category := "auto"
           stat_name := "taxi_rate"
           stat_value := (taxiCount : ℚ) / (totalMatches : ℚ) * 100
           stat_fraction := fracStr taxiCount totalMatches
           total_matches := totalMatches }

/-- The store rows touched by the match CRUD routes for one (team, regional) key:
the team's match list, its three aggregate rows, and its `team_statistics` row. -/
structure MatchStore where
  rows : List MatchRow
  agg : AggState
  team_statistics : Option TeamStatisticsRow

/-- Applies the placeholder's optional `team_statistics` upsert: a `none` result
(empty match set, early return) leaves the table untouched. -/
def applyPlaceholder (res : Option TeamStatisticsRow) (prior : Option TeamStatisticsRow) :
    Option TeamStatisticsRow :=
  match res with
  | none => prior
  | some r => some r

/-- Match routes file, `router.post('/')` (lines 294-365) after validation and
team lookup succeed: inserts the match row, then runs the local placeholder
(line 354) over the team's full match set. -/
def createMatchHandler (m : MatchRow) (s : MatchStore) : MatchStore :=
  let rows := s.rows ++ [m]
  { rows := rows
    agg := s.agg
    team_statistics := applyPlaceholder (placeholderCalculateTeamStatistics rows) s.team_statistics }

/-- Match routes file, `router.put('/:id')` (lines 371-421) after validation and a
successful update of the stored row at position `i` to `m`: runs the local
placeholder (line 411) over the team's full match set. -/
def updateMatchHandler (i : Nat) (m : MatchRow) (s : MatchStore) : MatchStore :=
  let rows := s.rows.set i m
  { rows := rows
    agg := s.agg
    team_statistics := applyPlaceholder (placeholderCalculateTeamStatistics rows) s.team_statistics }

/-- Match routes file, `router.delete('/:id')` (lines 427-465) after the row at
position `i` is found and deleted: runs the local placeholder (line 456) over the
remaining match set. -/
def deleteMatchHandler (i : Nat) (s : MatchStore) : MatchStore :=
  let rows := s.rows.eraseIdx i
  { rows := rows
    agg := s.agg
    team_statistics := applyPlaceholder (placeholderCalculateTeamStatistics rows) s.team_statistics }

/-- The outcome recorded for one team by the `/calculate-all/:regionalId` loop:
either the successfully recomputed aggregate state or the caught error message. -/
inductive TeamOutcome where
  | success (newState : AggState)
  | failure (msg : String)

/-- One team's `recompute` attempt inside the batch loop (statistics module,
line 215 calling lines 7-34): a failed match query makes `calculateTeamStatistics`
throw `Match query error: ...` (line 15); a successful query runs the aggregation. -/
def runTeam (t : Nat) (fetch : Except String (List MatchRow)) (s : AggState) : TeamOutcome :=
  match fetch with
  | Except.error e => TeamOutcome.failure ("Match query error: " ++ e)
  | Except.ok ms => TeamOutcome.success (calculateTeamStatistics t ms s)

/-- Statistics module, `router.post('/calculate-all/:regionalId')` (lines 207-222):
the `for` loop over the regional's teams.  Each list element carries a team id, the
outcome of that team's match query, and the team's prior aggregate rows; each
iteration `try`s the recompute and pushes a success or error entry, so a throw for
one team never aborts the loop. -/
def calculateAllStatistics (t : Nat) :
    List (Nat × Except String (List MatchRow) × AggState) → List (Nat × TeamOutcome)
  | [] => []
  | (tid, fetch, s) :: rest => (tid, runTeam t fetch s) :: calculateAllStatistics t rest

/-- One `team_rankings` row joined with its team id, as returned by the rankings
query (statistics module, line 226). -/
structure TeamRankRow where
  team_id : Nat
  row : RankRow

/-- A rankings response entry: the row plus the `overall_rank` added at line 228. -/
structure RankedTeamRow where
  base : TeamRankRow
  overall_rank : Nat

/-- The descending order used by `.order('overall_score', { ascending: false })`. -/
def rankDescRel (a b : TeamRankRow) : Prop :=
  b.row.overall_score ≤ a.row.overall_score

instance : DecidableRel rankDescRel :=
  fun a b => Nat.decLe b.row.overall_score a.row.overall_score

instance : IsTotal TeamRankRow rankDescRel :=
  ⟨fun a b => Nat.le_total b.row.overall_score a.row.overall_score⟩

instance : IsTrans TeamRankRow rankDescRel :=
  ⟨fun _ _ _ h1 h2 => Nat.le_trans h2 h1⟩

/-- Line 228: `data.map((team, index) => ({ ...team, overall_rank: index + 1 }))`,
with `n` the number of rows already emitted. -/
def assignRanks : Nat → List TeamRankRow → List RankedTeamRow
  | _, [] => []
  | n, r :: rest => { base := r, overall_rank := n + 1 } :: assignRanks (n + 1) rest

/-- Statistics module, `router.get('/regional/:regionalId/rankings')` (lines
224-230): the regional's `team_rankings` rows are retrieved ordered descending by
`overall_score` (modelled as a stable sort of the retrieved list, keeping the
original retrieval order on ties) and each row gets `overall_rank = index + 1`. -/
def rankingsForRegional (rows : List TeamRankRow) : List RankedTeamRow :=
  assignRanks 0 (List.insertionSort rankDescRel rows)

/-- One request to the Record Store, named by operation and table. -/
inductive StoreOp where
  | query (table : String)
  | upsert (table : String)

/-- The Record Store requests issued by one `calculateTeamStatistics` run (lines
7-34): the match query, then — on either branch — one upsert per aggregate table. -/
def calculateOps : List StoreOp :=
  [StoreOp.query "matches", StoreOp.upsert "team_stats_percentage",
   StoreOp.upsert "team_stats_fraction", StoreOp.upsert "team_rankings"]

/-- The express routing of the statistics router (lines 201-230) as seen on a
request path split into segments, mapped to the Record Store requests the matched
handler issues; `nTeams` is the number of teams the `calculate-all` loop visits.
A path matching none of the three route patterns has no handler (express answers
404 before any handler code runs), so no Record Store request is issued. -/
def statsRouterOps (nTeams : Nat) (path : List String) : List StoreOp :=
  match path with
  | ["calculate", _, _] => calculateOps
  | ["calculate-all", _] =>
      StoreOp.query "team_regional_participation" :: (List.replicate nTeams calculateOps).flatten
  | ["regional", _, "rankings"] => [StoreOp.query "team_rankings"]
  | _ => []

/-- A match row whose nullable columns are all absent and whose booleans are all
false, used to build concrete test rows. -/
def blankMatch : MatchRow :=
  ⟨none, false, none, none, none, none, none, none, none, none, none,
   none, none, none, none, none, none, none, none, none, false, false⟩

/-- A match row scoring the auto m1 position twice. -/
def mAuto2 : MatchRow := { blankMatch with auto_m1 := some 2 }

/-- A match row scoring the auto m1 position once. -/
def mAuto1 : MatchRow := { blankMatch with auto_m1 := some 1 }

/-- Three matches whose auto m1 position is scored 5 times in total. -/
def exC2 : List MatchRow := [mAuto2, mAuto2, mAuto1]

/-- An aggregate state with no rows stored yet. -/
def emptyAgg : AggState := ⟨none, none, none⟩

/-- A previously stored percentage table whose `pregame_amp_percent` is 50. -/
def dirtyPercs : Percentages := { defaultPercentages with pregame_amp_percent := 50 }

/-- An aggregate state holding a previously stored non-zero percentage row. -/
def dirtyAgg : AggState :=
  { perc := some { vals := dirtyPercs, last_calculated := 0 }, frac := none, rank := none }

/-- A concrete ranking row with the given team id and overall score. -/
def exRankRow (tid score : Nat) : TeamRankRow :=
  ⟨tid, ⟨score, 0, 0, 0, 0, 0⟩⟩

/-- Four ranking rows with overall scores 50, 80, 80, 30 in retrieval order. -/
def exRows : List TeamRankRow :=
  [exRankRow 1 50, exRankRow 2 80, exRankRow 3 80, exRankRow 4 30]

/-- A batch input whose second team's match query fails. -/
def exTeams : List (Nat × Except String (List MatchRow) × AggState) :=
  [(1, Except.ok [blankMatch], emptyAgg),
   (2, Except.error "boom", emptyAgg),
   (3, Except.ok ([] : List MatchRow), emptyAgg)]

/-- A match store with no rows at all. -/
def emptyMatchStore : MatchStore := ⟨[], emptyAgg, none⟩

/-- Sum of the three starting-position buckets. -/
def Counters.posSum (c : Counters) : Nat :=
  c.pregame_amp + c.pregame_middle + c.pregame_source

/-- Sum of the five climb-variant buckets. -/
def Counters.climbSum (c : Counters) : Nat :=
  c.climb_nothing + c.climb_park + c.climb_single + c.climb_double + c.climb_triple

/-- Sum of the four trap-count buckets. -/
def Counters.trapSum (c : Counters) : Nat :=
  c.trap_zero + c.trap_one + c.trap_two + c.trap_three

theorem applyPregame_eq (c : Counters) (m : MatchRow) :
    applyPregame c m =
      { c with
        pregame_amp := c.pregame_amp + (if m.starting_position = some "Amp" then 1 else 0)
        pregame_middle := c.pregame_middle + (if m.starting_position = some "Middle" then 1 else 0)
        pregame_source :=
          c.pregame_source + (if m.starting_position = some "Source" then 1 else 0) } := by
  unfold applyPregame
  split_ifs <;> simp_all

theorem applyClimb_eq (c : Counters) (m : MatchRow) :
    applyClimb c m =
      { c with
        climb_nothing := c.climb_nothing + (if m.endgame_climb = some "Nothing" then 1 else 0)
        climb_park := c.climb_park + (if m.endgame_climb = some "Park" then 1 else 0)
        climb_single := c.climb_single + (if m.endgame_climb = some "Single Climb" then 1 else 0)
        climb_double := c.climb_double + (if m.endgame_climb = some "Double Climb" then 1 else 0)
        climb_triple :=
          c.climb_triple + (if m.endgame_climb = some "Triple Climb" then 1 else 0) } := by
  unfold applyClimb
  split_ifs <;> simp_all

theorem applyTrap_eq (c : Counters) (m : MatchRow) :
    applyTrap c m =
      { c with
        trap_zero := c.trap_zero + (if m.endgame_trap_count.getD 0 = 0 then 1 else 0)
        trap_one := c.trap_one + (if m.endgame_trap_count.getD 0 = 1 then 1 else 0)
        trap_two := c.trap_two + (if m.endgame_trap_count.getD 0 = 2 then 1 else 0)
        trap_three := c.trap_three + (if m.endgame_trap_count.getD 0 = 3 then 1 else 0) } := by
  unfold applyTrap
  split_ifs <;> simp_all

theorem accumMatch_eq (c : Counters) (m : MatchRow) :
    accumMatch c m =
      { pregame_amp := c.pregame_amp + (if m.starting_position = some "Amp" then 1 else 0)
        pregame_middle := c.pregame_middle + (if m.starting_position = some "Middle" then 1 else 0)
        pregame_source := c.pregame_source + (if m.starting_position = some "Source" then 1 else 0)
        auto_taxi := c.auto_taxi + (if m.auto_taxi then 1 else 0)
        auto_m1 := c.auto_m1 + m.auto_m1.getD 0
        auto_m2 := c.auto_m2 + m.auto_m2.getD 0
        auto_m3 := c.auto_m3 + m.auto_m3.getD 0
        auto_m4 := c.auto_m4 + m.auto_m4.getD 0
        auto_m5 := c.auto_m5 + m.auto_m5.getD 0
        auto_s1 := c.auto_s1 + m.auto_s1.getD 0
        auto_s2 := c.auto_s2 + m.auto_s2.getD 0
        auto_s3 := c.auto_s3 + m.auto_s3.getD 0
        auto_r := c.auto_r + m.auto_r.getD 0
        teleop_amp_attempts := c.teleop_amp_attempts + m.teleop_amp_attempts.getD 0
        teleop_amp_scored := c.teleop_amp_scored + m.teleop_amp_scored.getD 0
        teleop_speaker_attempts := c.teleop_speaker_attempts + m.teleop_speaker_attempts.getD 0
        teleop_speaker_scored := c.teleop_speaker_scored + m.teleop_speaker_scored.getD 0
        teleop_ground := c.teleop_ground + m.teleop_ground_intake.getD 0
        teleop_source := c.teleop_source + m.teleop_source_intake.getD 0
        climb_nothing := c.climb_nothing + (if m.endgame_climb = some "Nothing" then 1 else 0)
        climb_park := c.climb_park + (if m.endgame_climb = some "Park" then 1 else 0)
        climb_single := c.climb_single + (if m.endgame_climb = some "Single Climb" then 1 else 0)
        climb_double := c.climb_double + (if m.endgame_climb = some "Double Climb" then 1 else 0)
        climb_triple := c.climb_triple + (if m.endgame_climb = some "Triple Climb" then 1 else 0)
        trap_zero := c.trap_zero + (if m.endgame_trap_count.getD 0 = 0 then 1 else 0)
        trap_one := c.trap_one + (if m.endgame_trap_count.getD 0 = 1 then 1 else 0)
        trap_two := c.trap_two + (if m.endgame_trap_count.getD 0 = 2 then 1 else 0)
        trap_three := c.trap_three + (if m.endgame_trap_count.getD 0 = 3 then 1 else 0)
        postgame_driver_total := c.postgame_driver_total + m.driver_rating.getD 0
        postgame_disabled := c.postgame_disabled + (if m.robot_disabled then 1 else 0)
        postgame_defense := c.postgame_defense + (if m.played_defense then 1 else 0) } := by
  rw [accumMatch, applyPregame_eq, applyAuto, applyTeleop, applyClimb_eq, applyTrap_eq,
    applyPostgame]

theorem foldl_accum_le (g : Counters → Nat) (hg : ∀ c m, g (accumMatch c m) ≤ g c + 1) :
    ∀ (ms : List MatchRow) (acc : Counters), g (ms.foldl accumMatch acc) ≤ g acc + ms.length := by
  intro ms
  induction ms with
  | nil => intro acc; simp
  | cons m rest ih =>
    intro acc
    have h1 := ih (accumMatch acc m)
    have h2 := hg acc m
    simp only [List.foldl_cons, List.length_cons]
    omega

theorem accumLe_taxi (ms : List MatchRow) : (accumulateCounters ms).auto_taxi ≤ ms.length := by
  have hg : ∀ c m, (accumMatch c m).auto_taxi ≤ c.auto_taxi + 1 := by
    intro c m; rw [accumMatch_eq]; dsimp only; split <;> omega
  simpa [initCounters] using foldl_accum_le (fun c => c.auto_taxi) hg ms initCounters

theorem accumLe_pregame_amp (ms : List MatchRow) :
    (accumulateCounters ms).pregame_amp ≤ ms.length := by
  have hg : ∀ c m, (accumMatch c m).pregame_amp ≤ c.pregame_amp + 1 := by
    intro c m; rw [accumMatch_eq]; dsimp only; split <;> omega
  simpa [initCounters] using foldl_accum_le (fun c => c.pregame_amp) hg ms initCounters

theorem accumLe_pregame_middle (ms : List MatchRow) :
    (accumulateCounters ms).pregame_middle ≤ ms.length := by
  have hg : ∀ c m, (accumMatch c m).pregame_middle ≤ c.pregame_middle + 1 := by
    intro c m; rw [accumMatch_eq]; dsimp only; split <;> omega
  simpa [initCounters] using foldl_accum_le (fun c => c.pregame_middle) hg ms initCounters

theorem accumLe_pregame_source (ms : List MatchRow) :
    (accumulateCounters ms).pregame_source ≤ ms.length := by
  have hg : ∀ c m, (accumMatch c m).pregame_source ≤ c.pregame_source + 1 := by
    intro c m; rw [accumMatch_eq]; dsimp only; split <;> omega
  simpa [initCounters] using foldl_accum_le (fun c => c.pregame_source) hg ms initCounters

theorem accumLe_climb_nothing (ms : List MatchRow) :
    (accumulateCounters ms).climb_nothing ≤ ms.length := by
  have hg : ∀ c m, (accumMatch c m).climb_nothing ≤ c.climb_nothing + 1 := by
    intro c m; rw [accumMatch_eq]; dsimp only; split <;> omega
  simpa [initCounters] using foldl_accum_le (fun c => c.climb_nothing) hg ms initCounters

theorem accumLe_climb_park (ms : List MatchRow) :
    (accumulateCounters ms).climb_park ≤ ms.length := by
  have hg : ∀ c m, (accumMatch c m).climb_park ≤ c.climb_park + 1 := by
    intro c m; rw [accumMatch_eq]; dsimp only; split <;> omega
  simpa [initCounters] using foldl_accum_le (fun c => c.climb_park) hg ms initCounters

theorem accumLe_climb_single (ms : List MatchRow) :
    (accumulateCounters ms).climb_single ≤ ms.length := by
  have hg : ∀ c m, (accumMatch c m).climb_single ≤ c.climb_single + 1 := by
    intro c m; rw [accumMatch_eq]; dsimp only; split <;> omega
  simpa [initCounters] using foldl_accum_le (fun c => c.climb_single) hg ms initCounters

theorem accumLe_climb_double (ms : List MatchRow) :
    (accumulateCounters ms).climb_double ≤ ms.length := by
  have hg : ∀ c m, (accumMatch c m).climb_double ≤ c.climb_double + 1 := by
    intro c m; rw [accumMatch_eq]; dsimp only; split <;> omega
  simpa [initCounters] using foldl_accum_le (fun c => c.climb_double) hg ms initCounters

theorem accumLe_climb_triple (ms : List MatchRow) :
    (accumulateCounters ms).climb_triple ≤ ms.length := by
  have hg : ∀ c m, (accumMatch c m).climb_triple ≤ c.climb_triple + 1 := by
    intro c m; rw [accumMatch_eq]; dsimp only; split <;> omega
  simpa [initCounters] using foldl_accum_le (fun c => c.climb_triple) hg ms initCounters

theorem accumLe_trap_zero (ms : List MatchRow) :
    (accumulateCounters ms).trap_zero ≤ ms.length := by
  have hg : ∀ c m, (accumMatch c m).trap_zero ≤ c.trap_zero + 1 := by
    intro c m; rw [accumMatch_eq]; dsimp only; split <;> omega
  simpa [initCounters] using foldl_accum_le (fun c => c.trap_zero) hg ms initCounters

theorem accumLe_trap_one (ms : List MatchRow) :
    (accumulateCounters ms).trap_one ≤ ms.length := by
  have hg : ∀ c m, (accumMatch c m).trap_one ≤ c.trap_one + 1 := by
    intro c m; rw [accumMatch_eq]; dsimp only; split <;> omega
  simpa [initCounters] using foldl_accum_le (fun c => c.trap_one) hg ms initCounters

theorem accumLe_trap_two (ms : List MatchRow) :
    (accumulateCounters ms).trap_two ≤ ms.length := by
  have hg : ∀ c m, (accumMatch c m).trap_two ≤ c.trap_two + 1 := by
    intro c m; rw [accumMatch_eq]; dsimp only; split <;> omega
  simpa [initCounters] using foldl_accum_le (fun c => c.trap_two) hg ms initCounters

theorem accumLe_trap_three (ms : List MatchRow) :
    (accumulateCounters ms).trap_three ≤ ms.length := by
  have hg : ∀ c m, (accumMatch c m).trap_three ≤ c.trap_three + 1 := by
    intro c m; rw [accumMatch_eq]; dsimp only; split <;> omega
  simpa [initCounters] using foldl_accum_le (fun c => c.trap_three) hg ms initCounters

theorem accumMatch_posSum_le (c : Counters) (m : MatchRow) :
    (accumMatch c m).posSum ≤ c.posSum + 1 := by
  rw [Counters.posSum, Counters.posSum, accumMatch_eq]
  dsimp only
  split_ifs <;> first | omega | simp_all

theorem accumMatch_climbSum_le (c : Counters) (m : MatchRow) :
    (accumMatch c m).climbSum ≤ c.climbSum + 1 := by
  rw [Counters.climbSum, Counters.climbSum, accumMatch_eq]
  dsimp only
  split_ifs <;> first | omega | simp_all

theorem accumMatch_trapSum_le (c : Counters) (m : MatchRow) :
    (accumMatch c m).trapSum ≤ c.trapSum + 1 := by
  rw [Counters.trapSum, Counters.trapSum, accumMatch_eq]
  dsimp only
  split_ifs <;> omega

theorem accumLe_posSum (ms : List MatchRow) : (accumulateCounters ms).posSum ≤ ms.length := by
  simpa [initCounters, Counters.posSum] using
    foldl_accum_le Counters.posSum accumMatch_posSum_le ms initCounters

theorem accumLe_climbSum (ms : List MatchRow) : (accumulateCounters ms).climbSum ≤ ms.length := by
  simpa [initCounters, Counters.climbSum] using
    foldl_accum_le Counters.climbSum accumMatch_climbSum_le ms initCounters

theorem accumLe_trapSum (ms : List MatchRow) : (accumulateCounters ms).trapSum ≤ ms.length := by
  simpa [initCounters, Counters.trapSum] using
    foldl_accum_le Counters.trapSum accumMatch_trapSum_le ms initCounters

theorem ratio_le_100 {a b : Nat} (hb : 0 < b) (hab : a ≤ b) :
    ((a : ℚ) / (b : ℚ)) * 100 ≤ 100 := by
  have hb' : (0 : ℚ) < (b : ℚ) := by exact_mod_cast hb
  have h1 : (a : ℚ) / (b : ℚ) ≤ 1 := by
    rw [div_le_one hb']
    exact_mod_cast hab
  nlinarith

theorem ratio_nonneg (a b : Nat) : 0 ≤ ((a : ℚ) / (b : ℚ)) * 100 := by positivity

theorem unclamped_eq_min {a b : Nat} (hb : 0 < b) (hab : a ≤ b) :
    ((a : ℚ) / (b : ℚ)) * 100 = min (100 * (a : ℚ) / (b : ℚ)) 100 := by
  have h := ratio_le_100 hb hab
  have h2 : 100 * (a : ℚ) / (b : ℚ) = (a : ℚ) / (b : ℚ) * 100 := by ring
  rw [h2, min_eq_left h]

theorem calculateAllStatistics_append (t : Nat)
    (xs ys : List (Nat × Except String (List MatchRow) × AggState)) :
    calculateAllStatistics t (xs ++ ys) =
      calculateAllStatistics t xs ++ calculateAllStatistics t ys := by
  induction xs with
  | nil => rfl
  | cons x rest ih =>
    obtain ⟨tid, fetch, s⟩ := x
    simp [calculateAllStatistics, ih]

theorem calculateAllStatistics_length (t : Nat)
    (teams : List (Nat × Except String (List MatchRow) × AggState)) :
    (calculateAllStatistics t teams).length = teams.length := by
  induction teams with
  | nil => rfl
  | cons x rest ih =>
    obtain ⟨tid, fetch, s⟩ := x
    simp [calculateAllStatistics, ih]

theorem assignRanks_map_base (n : Nat) (l : List TeamRankRow) :
    (assignRanks n l).map RankedTeamRow.base = l := by
  induction l generalizing n with
  | nil => rfl
  | cons r rest ih => simp [assignRanks, ih]

theorem assignRanks_rank :
    ∀ (l : List TeamRankRow) (n i : Nat) (h : i < (assignRanks n l).length),
      ((assignRanks n l).get ⟨i, h⟩).overall_rank = n + i + 1
  | [], _, i, h => by simp [assignRanks] at h
  | r :: rest, n, 0, _ => rfl
  | r :: rest, n, i + 1, h => by
    have hi : i < (assignRanks (n + 1) rest).length := by
      simpa [assignRanks] using h
    have := assignRanks_rank rest (n + 1) i hi
    simpa [assignRanks, Nat.add_assoc, Nat.add_comm, Nat.add_left_comm] using this

/-- C1, counterexample: recomputing over an empty match set does NOT reset a
previously non-zero aggregate row to the zero-state.  With a stored percentage
row whose `pregame_amp_percent` is 50, `calculateTeamStatistics` on an empty set
leaves that value at 50, because `initializeEmptyStatistics` upserts only the key
and timestamp columns, and a conflicting upsert overwrites only its payload
columns. -/
theorem emptyStats_C1_counterexample :
    (calculateTeamStatistics 1 [] dirtyAgg).perc.map (fun r => r.vals.pregame_amp_percent) =
      some 50 ∧ (50 : ℚ) ≠ 0 :=
  ⟨rfl, by norm_num⟩

/-- C1, amended: recomputing over an empty match set upserts all three aggregate
rows with payload {key, timestamp} (plus `matches_played = 0` for rankings).  When
no prior row exists, the inserted row carries the schema's zero-state defaults
(all-zero percentages, all-`0/0` fractions, zero scores, zero matches played);
when a prior row exists, only the timestamp (and the rankings row's
`matches_played`) change and every other stored value survives. -/
theorem emptyStats_C1_amended (t : Nat) (s : AggState) :
    (calculateTeamStatistics t [] s).perc =
      some { vals := (match s.perc with | none => defaultPercentages | some r => r.vals),
             last_calculated := t } ∧
    (calculateTeamStatistics t [] s).frac =
      some { vals := (match s.frac with | none => defaultFractions | some r => r.vals),
             last_calculated := t } ∧
    (calculateTeamStatistics t [] s).rank =
      some (match s.rank with
        | none => { overall_score := 0, auto_score := 0, teleop_score := 0,
                    endgame_score := 0, matches_played := 0, last_calculated := t }
        | some r => { r with matches_played := 0, last_calculated := t }) := by
  rcases s with ⟨p, f, r⟩
  rcases p with _ | p <;> rcases f with _ | f <;> rcases r with _ | r <;>
    exact ⟨rfl, rfl, rfl⟩

/-- C3: for a non-empty match set, each phase-B accuracy percentage equals
`100 * scored / attempts` when the accumulated attempts are positive and 0
otherwise (total, never a division error: the embedding is in `ℚ`), with no
clamping applied, and each accuracy fraction string is exactly
`scored + "/" + attempts`. -/
theorem accuracy_C3 (ms : List MatchRow) (_h : ms ≠ []) :
    ((calculateStatsFromMatches ms ms.length).percentages.teleop_amp_percent =
      if 0 < (accumulateCounters ms).teleop_amp_attempts
      then 100 * ((accumulateCounters ms).teleop_amp_scored : ℚ) /
        ((accumulateCounters ms).teleop_amp_attempts : ℚ)
      else 0) ∧
    ((calculateStatsFromMatches ms ms.length).percentages.teleop_speaker_percent =
      if 0 < (accumulateCounters ms).teleop_speaker_attempts
      then 100 * ((accumulateCounters ms).teleop_speaker_scored : ℚ) /
        ((accumulateCounters ms).teleop_speaker_attempts : ℚ)
      else 0) ∧
    (calculateStatsFromMatches ms ms.length).fractions.teleop_amp_fraction =
      fracStr (accumulateCounters ms).teleop_amp_scored
        (accumulateCounters ms).teleop_amp_attempts ∧
    (calculateStatsFromMatches ms ms.length).fractions.teleop_speaker_fraction =
      fracStr (accumulateCounters ms).teleop_speaker_scored
        (accumulateCounters ms).teleop_speaker_attempts := by
  refine ⟨?_, ?_, rfl, rfl⟩ <;>
  simp only [calculateStatsFromMatches, accumulateCounters] <;>
  (split_ifs with h1 <;> ring)

/-- C3, witness: a single match whose teleop columns are all absent has 0
accumulated attempts, and the claim instance at that input makes the amp accuracy
percentage 0 and the amp fraction the string 0/0. -/
theorem accuracy_C3_witness :
    (([blankMatch] : List MatchRow) ≠ []) ∧
    ((calculateStatsFromMatches [blankMatch] [blankMatch].length).percentages.teleop_amp_percent =
      if 0 < (accumulateCounters [blankMatch]).teleop_amp_attempts
      then 100 * ((accumulateCounters [blankMatch]).teleop_amp_scored : ℚ) /
        ((accumulateCounters [blankMatch]).teleop_amp_attempts : ℚ)
      else 0) ∧
    (calculateStatsFromMatches [blankMatch] [blankMatch].length).percentages.teleop_amp_percent
      = 0 ∧
    (calculateStatsFromMatches [blankMatch] [blankMatch].length).fractions.teleop_amp_fraction
      = "0/0" :=
  ⟨by simp, (accuracy_C3 [blankMatch] (by simp)).1, rfl, rfl⟩

/-- C6: the ranking row recomputed from a non-empty match set satisfies
`overall_score = auto_score + teleop_score + endgame_score` exactly, with each
component the weighted sum of its phase's accumulated counters (the source's
point weights: 2 per mid note, 5 per speaker-side note, 3 per r note, 2 per taxi;
1 per amp score, 2 per speaker score; 3/10/20 per single/double/triple climb and
5/10/15 per 1/2/3 traps). -/
theorem compositeScore_C6 (ms : List MatchRow) (h : ms ≠ []) (t : Nat) (s : AggState) :
    ∃ r : RankRow, (calculateTeamStatistics t ms s).rank = some r ∧
      r.overall_score = r.auto_score + r.teleop_score + r.endgame_score ∧
      r.auto_score =
        ((accumulateCounters ms).auto_m1 + (accumulateCounters ms).auto_m2 +
          (accumulateCounters ms).auto_m3 + (accumulateCounters ms).auto_m4 +
          (accumulateCounters ms).auto_m5) * 2 +
        ((accumulateCounters ms).auto_s1 + (accumulateCounters ms).auto_s2 +
          (accumulateCounters ms).auto_s3) * 5 +
        (accumulateCounters ms).auto_r * 3 + (accumulateCounters ms).auto_taxi * 2 ∧
      r.teleop_score = (accumulateCounters ms).teleop_amp_scored * 1 +
        (accumulateCounters ms).teleop_speaker_scored * 2 ∧
      r.endgame_score = (accumulateCounters ms).climb_single * 3 +
        (accumulateCounters ms).climb_double * 10 + (accumulateCounters ms).climb_triple * 20 +
        (accumulateCounters ms).trap_one * 5 + (accumulateCounters ms).trap_two * 10 +
        (accumulateCounters ms).trap_three * 15 ∧
      r.matches_played = ms.length := by
  have hne : ms.isEmpty = false := by simpa [List.isEmpty_iff] using h
  simp only [calculateTeamStatistics, hne, Bool.false_eq_true, if_false]
  exact ⟨_, rfl, rfl, rfl, rfl, rfl, rfl⟩

/-- C6, witness: the composite-score decomposition instantiated over the concrete
three-match list. -/
theorem compositeScore_C6_witness :
    (exC2 ≠ ([] : List MatchRow)) ∧
    ∃ r : RankRow, (calculateTeamStatistics 0 exC2 emptyAgg).rank = some r ∧
      r.overall_score = r.auto_score + r.teleop_score + r.endgame_score :=
  ⟨by simp [exC2], by
    obtain ⟨r, h1, h2, _⟩ := compositeScore_C6 exC2 (by simp [exC2]) 0 emptyAgg
    exact ⟨r, h1, h2⟩⟩

/-- C7: `recompute` is idempotent.  Two runs of `calculateTeamStatistics` over the
same match set produce identical percentage, fraction, and ranking rows apart from
the recomputation timestamp, whatever the prior aggregate state: the stats are a
deterministic function of the fetched match list, the non-empty branch fully
replaces all three rows, and the empty branch's partial upsert rewrites the same
payload either time. -/
theorem idempotent_C7 (t1 t2 : Nat) (ms : List MatchRow) (s : AggState) :
    eraseTime (calculateTeamStatistics t2 ms (calculateTeamStatistics t1 ms s)) =
      eraseTime (calculateTeamStatistics t1 ms s) := by
  cases hm : ms.isEmpty with
  | true =>
    rcases s with ⟨p, f, r⟩
    rcases p with _ | p <;> rcases f with _ | f <;> rcases r with _ | r <;>
      simp [calculateTeamStatistics, hm, initializeEmptyStatistics, eraseTime,
        erasePercTime, eraseFracTime, eraseRankTime]
  | false =>
    simp [calculateTeamStatistics, hm, eraseTime, erasePercTime, eraseFracTime, eraseRankTime]

/-- C2: for a non-empty match set, every derived percentage for the nine phase-A
note positions, for the left-start-zone (taxi) flag, and for every phase-C
category (five climb variants and four trap counts) equals
`100 * occurrences / total_matches` clamped to a maximum of 100.  The source
clamps the nine position percentages with `Math.min`; the taxi and phase-C
percentages are written unclamped but each of those counters is incremented at
most once per match, so they never exceed 100 and equal their clamped form. -/
theorem clampedPercent_C2 (ms : List MatchRow) (h : ms ≠ []) :
    ((calculateStatsFromMatches ms ms.length).percentages.auto_m1_percent =
      min (100 * ((accumulateCounters ms).auto_m1 : ℚ) / (ms.length : ℚ)) 100) ∧
    ((calculateStatsFromMatches ms ms.length).percentages.auto_m2_percent =
      min (100 * ((accumulateCounters ms).auto_m2 : ℚ) / (ms.length : ℚ)) 100) ∧
    ((calculateStatsFromMatches ms ms.length).percentages.auto_m3_percent =
      min (100 * ((accumulateCounters ms).auto_m3 : ℚ) / (ms.length : ℚ)) 100) ∧
    ((calculateStatsFromMatches ms ms.length).percentages.auto_m4_percent =
      min (100 * ((accumulateCounters ms).auto_m4 : ℚ) / (ms.length : ℚ)) 100) ∧
    ((calculateStatsFromMatches ms ms.length).percentages.auto_m5_percent =
      min (100 * ((accumulateCounters ms).auto_m5 : ℚ) / (ms.length : ℚ)) 100) ∧
    ((calculateStatsFromMatches ms ms.length).percentages.auto_s1_percent =
      min (100 * ((accumulateCounters ms).auto_s1 : ℚ) / (ms.length : ℚ)) 100) ∧
    ((calculateStatsFromMatches ms ms.length).percentages.auto_s2_percent =
      min (100 * ((accumulateCounters ms).auto_s2 : ℚ) / (ms.length : ℚ)) 100) ∧
    ((calculateStatsFromMatches ms ms.length).percentages.auto_s3_percent =
      min (100 * ((accumulateCounters ms).auto_s3 : ℚ) / (ms.length : ℚ)) 100) ∧
    ((calculateStatsFromMatches ms ms.length).percentages.auto_r_percent =
      min (100 * ((accumulateCounters ms).auto_r : ℚ) / (ms.length : ℚ)) 100) ∧
    ((calculateStatsFromMatches ms ms.length).percentages.auto_taxi_percent =
      min (100 * ((accumulateCounters ms).auto_taxi : ℚ) / (ms.length : ℚ)) 100) ∧
    ((calculateStatsFromMatches ms ms.length).percentages.endgame_nothing_percent =
      min (100 * ((accumulateCounters ms).climb_nothing : ℚ) / (ms.length : ℚ)) 100) ∧
    ((calculateStatsFromMatches ms ms.length).percentages.endgame_park_percent =
      min (100 * ((accumulateCounters ms).climb_park : ℚ) / (ms.length : ℚ)) 100) ∧
    ((calculateStatsFromMatches ms ms.length).percentages.endgame_single_climb_percent =
      min (100 * ((accumulateCounters ms).climb_single : ℚ) / (ms.length : ℚ)) 100) ∧
    ((calculateStatsFromMatches ms ms.length).percentages.endgame_double_climb_percent =
      min (100 * ((accumulateCounters ms).climb_double : ℚ) / (ms.length : ℚ)) 100) ∧
    ((calculateStatsFromMatches ms ms.length).percentages.endgame_triple_climb_percent =
      min (100 * ((accumulateCounters ms).climb_triple : ℚ) / (ms.length : ℚ)) 100) ∧
    ((calculateStatsFromMatches ms ms.length).percentages.endgame_0_trap_percent =
      min (100 * ((accumulateCounters ms).trap_zero : ℚ) / (ms.length : ℚ)) 100) ∧
    ((calculateStatsFromMatches ms ms.length).percentages.endgame_1_trap_percent =
      min (100 * ((accumulateCounters ms).trap_one : ℚ) / (ms.length : ℚ)) 100) ∧
    ((calculateStatsFromMatches ms ms.length).percentages.endgame_2_trap_percent =
      min (100 * ((accumulateCounters ms).trap_two : ℚ) / (ms.length : ℚ)) 100) ∧
    ((calculateStatsFromMatches ms ms.length).percentages.endgame_3_trap_percent =
      min (100 * ((accumulateCounters ms).trap_three : ℚ) / (ms.length : ℚ)) 100) := by
  have hlen : 0 < ms.length := List.length_pos.mpr h
  refine ⟨?_, ?_, ?_, ?_, ?_, ?_, ?_, ?_, ?_, ?_, ?_, ?_, ?_, ?_, ?_, ?_, ?_, ?_, ?_⟩ <;>
    simp only [calculateStatsFromMatches, accumulateCounters]
  · exact congrArg (fun z => min z 100) (by ring)
  · exact congrArg (fun z => min z 100) (by ring)
  · exact congrArg (fun z => min z 100) (by ring)
  · exact congrArg (fun z => min z 100) (by ring)
  · exact congrArg (fun z => min z 100) (by ring)
  · exact congrArg (fun z => min z 100) (by ring)
  · exact congrArg (fun z => min z 100) (by ring)
  · exact congrArg (fun z => min z 100) (by ring)
  · exact congrArg (fun z => min z 100) (by ring)
  · exact unclamped_eq_min hlen (accumLe_taxi ms)
  · exact unclamped_eq_min hlen (accumLe_climb_nothing ms)
  · exact unclamped_eq_min hlen (accumLe_climb_park ms)
  · exact unclamped_eq_min hlen (accumLe_climb_single ms)
  · exact unclamped_eq_min hlen (accumLe_climb_double ms)
  · exact unclamped_eq_min hlen (accumLe_climb_triple ms)
  · exact unclamped_eq_min hlen (accumLe_trap_zero ms)
  · exact unclamped_eq_min hlen (accumLe_trap_one ms)
  · exact unclamped_eq_min hlen (accumLe_trap_two ms)
  · exact unclamped_eq_min hlen (accumLe_trap_three ms)

/-- C2, witness: over the three concrete matches whose auto m1 position is scored
5 times in total, the m1 percentage satisfies the clamped formula and evaluates to
100 rather than 166.7. -/
theorem clampedPercent_C2_witness :
    (exC2 ≠ ([] : List MatchRow)) ∧
    ((calculateStatsFromMatches exC2 exC2.length).percentages.auto_m1_percent =
      min (100 * ((accumulateCounters exC2).auto_m1 : ℚ) / (exC2.length : ℚ)) 100) ∧
    (calculateStatsFromMatches exC2 exC2.length).percentages.auto_m1_percent = 100 :=
  ⟨by simp [exC2], (clampedPercent_C2 exC2 (by simp [exC2])).1, by
    have h5 : (accumulateCounters exC2).auto_m1 = 5 := by decide
    have hshape : (calculateStatsFromMatches exC2 exC2.length).percentages.auto_m1_percent =
        min (((accumulateCounters exC2).auto_m1 : ℚ) / (exC2.length : ℚ) * 100) 100 := rfl
    rw [hshape, h5, show exC2.length = 3 from rfl]
    norm_num [min_def]⟩

/-- C10, counterexample: a match whose `endgame_trap_count` is missing does not
leave every trap bucket untouched — the `|| 0` coercion routes it into the
zero-trap bucket, so the claim's "a missing categorical value increments none"
fails for the trap group. -/
theorem buckets_C10_counterexample :
    blankMatch.endgame_trap_count = none ∧
    (accumulateCounters [blankMatch]).trap_zero = 1 ∧
    (accumulateCounters [blankMatch]).trap_zero ≠ 0 :=
  ⟨rfl, by decide, by decide⟩

/-- C10, amended: every match increments at most one starting-position bucket, at
most one climb-variant bucket, and at most one trap-count bucket; a missing or
unrecognized starting position or climb string increments none, a trap count
outside 0-3 increments none, while a missing trap count is coerced to 0 and
increments the zero-trap bucket.  Hence each categorical group's bucket counts sum
to at most the match count, and every occurrence-based percentage of those groups
lies in [0, 100] even without clamping. -/
theorem buckets_C10_amended (ms : List MatchRow) (h : ms ≠ []) :
    (accumulateCounters ms).posSum ≤ ms.length ∧
    (accumulateCounters ms).climbSum ≤ ms.length ∧
    (accumulateCounters ms).trapSum ≤ ms.length ∧
    (∀ c m, (accumMatch c m).posSum ≤ c.posSum + 1) ∧
    (∀ c m, (accumMatch c m).climbSum ≤ c.climbSum + 1) ∧
    (∀ c m, (accumMatch c m).trapSum ≤ c.trapSum + 1) ∧
    (∀ c m, m.starting_position = none → (accumMatch c m).posSum = c.posSum) ∧
    (∀ c m s', m.starting_position = some s' → s' ≠ "Amp" → s' ≠ "Middle" → s' ≠ "Source" →
      (accumMatch c m).posSum = c.posSum) ∧
    (∀ c m, m.endgame_climb = none → (accumMatch c m).climbSum = c.climbSum) ∧
    (∀ c m s', m.endgame_climb = some s' → s' ≠ "Nothing" → s' ≠ "Park" →
      s' ≠ "Single Climb" → s' ≠ "Double Climb" → s' ≠ "Triple Climb" →
      (accumMatch c m).climbSum = c.climbSum) ∧
    (∀ c m k, m.endgame_trap_count = some k → 3 < k → (accumMatch c m).trapSum = c.trapSum) ∧
    (∀ c m, m.endgame_trap_count = none → (accumMatch c m).trap_zero = c.trap_zero + 1) ∧
    (0 ≤ (calculateStatsFromMatches ms ms.length).percentages.pregame_amp_percent ∧
      (calculateStatsFromMatches ms ms.length).percentages.pregame_amp_percent ≤ 100) ∧
    (0 ≤ (calculateStatsFromMatches ms ms.length).percentages.pregame_middle_percent ∧
      (calculateStatsFromMatches ms ms.length).percentages.pregame_middle_percent ≤ 100) ∧
    (0 ≤ (calculateStatsFromMatches ms ms.length).percentages.pregame_source_percent ∧
      (calculateStatsFromMatches ms ms.length).percentages.pregame_source_percent ≤ 100) ∧
    (0 ≤ (calculateStatsFromMatches ms ms.length).percentages.endgame_nothing_percent ∧
      (calculateStatsFromMatches ms ms.length).percentages.endgame_nothing_percent ≤ 100) ∧
    (0 ≤ (calculateStatsFromMatches ms ms.length).percentages.endgame_park_percent ∧
      (calculateStatsFromMatches ms ms.length).percentages.endgame_park_percent ≤ 100) ∧
    (0 ≤ (calculateStatsFromMatches ms ms.length).percentages.endgame_single_climb_percent ∧
      (calculateStatsFromMatches ms ms.length).percentages.endgame_single_climb_percent ≤ 100) ∧
    (0 ≤ (calculateStatsFromMatches ms ms.length).percentages.endgame_double_climb_percent ∧
      (calculateStatsFromMatches ms ms.length).percentages.endgame_double_climb_percent ≤ 100) ∧
    (0 ≤ (calculateStatsFromMatches ms ms.length).percentages.endgame_triple_climb_percent ∧
      (calculateStatsFromMatches ms ms.length).percentages.endgame_triple_climb_percent ≤ 100) ∧
    (0 ≤ (calculateStatsFromMatches ms ms.length).percentages.endgame_0_trap_percent ∧
      (calculateStatsFromMatches ms ms.length).percentages.endgame_0_trap_percent ≤ 100) ∧
    (0 ≤ (calculateStatsFromMatches ms ms.length).percentages.endgame_1_trap_percent ∧
      (calculateStatsFromMatches ms ms.length).percentages.endgame_1_trap_percent ≤ 100) ∧
    (0 ≤ (calculateStatsFromMatches ms ms.length).percentages.endgame_2_trap_percent ∧
      (calculateStatsFromMatches ms ms.length).percentages.endgame_2_trap_percent ≤ 100) ∧
    (0 ≤ (calculateStatsFromMatches ms ms.length).percentages.endgame_3_trap_percent ∧
      (calculateStatsFromMatches ms ms.length).percentages.endgame_3_trap_percent ≤ 100) := by
  have hlen : 0 < ms.length := List.length_pos.mpr h
  refine ⟨accumLe_posSum ms, accumLe_climbSum ms, accumLe_trapSum ms,
    accumMatch_posSum_le, accumMatch_climbSum_le, accumMatch_trapSum_le,
    ?_, ?_, ?_, ?_, ?_, ?_, ?_, ?_, ?_, ?_, ?_, ?_, ?_, ?_, ?_, ?_, ?_, ?_⟩
  · intro c m hm
    simp [accumMatch_eq, Counters.posSum, hm]
  · intro c m s' hm h1 h2 h3
    simp [accumMatch_eq, Counters.posSum, hm, h1, h2, h3]
  · intro c m hm
    simp [accumMatch_eq, Counters.climbSum, hm]
  · intro c m s' hm h1 h2 h3 h4 h5
    simp [accumMatch_eq, Counters.climbSum, hm, h1, h2, h3, h4, h5]
  · intro c m k hm hk
    simp only [accumMatch_eq, Counters.trapSum, hm, Option.getD_some]
    split_ifs <;> omega
  · intro c m hm
    simp [accumMatch_eq, hm]
  all_goals constructor
  all_goals simp only [calculateStatsFromMatches, accumulateCounters]
  · exact ratio_nonneg _ _
  · exact ratio_le_100 hlen (accumLe_pregame_amp ms)
  · exact ratio_nonneg _ _
  · exact ratio_le_100 hlen (accumLe_pregame_middle ms)
  · exact ratio_nonneg _ _
  · exact ratio_le_100 hlen (accumLe_pregame_source ms)
  · exact ratio_nonneg _ _
  · exact ratio_le_100 hlen (accumLe_climb_nothing ms)
  · exact ratio_nonneg _ _
  · exact ratio_le_100 hlen (accumLe_climb_park ms)
  · exact ratio_nonneg _ _
  · exact ratio_le_100 hlen (accumLe_climb_single ms)
  · exact ratio_nonneg _ _
  · exact ratio_le_100 hlen (accumLe_climb_double ms)
  · exact ratio_nonneg _ _
  · exact ratio_le_100 hlen (accumLe_climb_triple ms)
  · exact ratio_nonneg _ _
  · exact ratio_le_100 hlen (accumLe_trap_zero ms)
  · exact ratio_nonneg _ _
  · exact ratio_le_100 hlen (accumLe_trap_one ms)
  · exact ratio_nonneg _ _
  · exact ratio_le_100 hlen (accumLe_trap_two ms)
  · exact ratio_nonneg _ _
  · exact ratio_le_100 hlen (accumLe_trap_three ms)

/-- C10, witness: the amended bucket invariant instantiated over the concrete
three-match list. -/
theorem buckets_C10_witness :
    (exC2 ≠ ([] : List MatchRow)) ∧ (accumulateCounters exC2).posSum ≤ exC2.length :=
  ⟨by simp [exC2], (buckets_C10_amended exC2 (by simp [exC2])).1⟩

/-- C5: the batch recompute visits every team of the grouping, records exactly one
entry per team, marks a team whose match query throws as failed with the thrown
message, and never lets one team's failure abort the loop: around any failing
team, the earlier and later teams are processed exactly as they would be on their
own, and a fetch-ok team's entry is the successful recompute. -/
theorem calculateAll_C5 (t : Nat)
    (teams : List (Nat × Except String (List MatchRow) × AggState)) :
    (calculateAllStatistics t teams).length = teams.length ∧
    (∀ xs tid e s ys, teams = xs ++ (tid, Except.error e, s) :: ys →
      calculateAllStatistics t teams =
        calculateAllStatistics t xs ++
          (tid, TeamOutcome.failure ("Match query error: " ++ e)) ::
            calculateAllStatistics t ys) ∧
    (∀ xs tid ms s ys, teams = xs ++ (tid, Except.ok ms, s) :: ys →
      calculateAllStatistics t teams =
        calculateAllStatistics t xs ++
          (tid, TeamOutcome.success (calculateTeamStatistics t ms s)) ::
            calculateAllStatistics t ys) := by
  refine ⟨calculateAllStatistics_length t teams, ?_, ?_⟩
  · rintro xs tid e s ys rfl
    rw [calculateAllStatistics_append]
    rfl
  · rintro xs tid ms s ys rfl
    rw [calculateAllStatistics_append]
    rfl

/-- C5, witness: the batch report over a concrete three-team input whose second
team's match query throws, applied through the failure-decomposition clause. -/
theorem calculateAll_C5_witness :
    (exTeams = [(1, Except.ok [blankMatch], emptyAgg)] ++
      (2, Except.error "boom", emptyAgg) :: [(3, Except.ok ([] : List MatchRow), emptyAgg)]) ∧
    calculateAllStatistics 7 exTeams =
      calculateAllStatistics 7 [(1, Except.ok [blankMatch], emptyAgg)] ++
        (2, TeamOutcome.failure ("Match query error: " ++ "boom")) ::
          calculateAllStatistics 7 [(3, Except.ok ([] : List MatchRow), emptyAgg)] :=
  ⟨rfl,
   (calculateAll_C5 7 exTeams).2.1 [(1, Except.ok [blankMatch], emptyAgg)] 2 "boom" emptyAgg
     [(3, Except.ok ([] : List MatchRow), emptyAgg)] rfl⟩

/-- C8: the rankings response lists exactly the grouping's ranking rows (a
permutation of the retrieved rows), ordered descending by composite overall score
under the stable sort that models the store's order-by, and row `i` of the
response carries `overall_rank = i + 1`. -/
theorem rankings_C8 (rows : List TeamRankRow) :
    List.Perm ((rankingsForRegional rows).map RankedTeamRow.base) rows ∧
    List.Sorted rankDescRel ((rankingsForRegional rows).map RankedTeamRow.base) ∧
    ∀ i (h : i < (rankingsForRegional rows).length),
      ((rankingsForRegional rows).get ⟨i, h⟩).overall_rank = i + 1 := by
  refine ⟨?_, ?_, ?_⟩
  · rw [rankingsForRegional, assignRanks_map_base]
    exact List.perm_insertionSort rankDescRel rows
  · rw [rankingsForRegional, assignRanks_map_base]
    exact List.sorted_insertionSort rankDescRel rows
  · intro i h
    have hi : i < (assignRanks 0 (List.insertionSort rankDescRel rows)).length := by
      simpa [rankingsForRegional] using h
    have := assignRanks_rank (List.insertionSort rankDescRel rows) 0 i hi
    simpa [rankingsForRegional] using this

/-- C8, witness: over four rows with overall scores 50, 80, 80, 30, the second
response entry (one of the tied 80s, kept in retrieval order) has rank 2. -/
theorem rankings_C8_witness :
    (1 < (rankingsForRegional exRows).length) ∧
    ((rankingsForRegional exRows).get ⟨1, by decide⟩).overall_rank = 1 + 1 :=
  ⟨by decide, (rankings_C8 exRows).2.2 1 (by decide)⟩

/-- C9: a statistics-route request whose path is missing the team or grouping
identifier — a `calculate` path with fewer than two identifier segments, or a
rankings path without its grouping segment — matches no route, so it is rejected
before the handler runs and no Record Store request (query, upsert or count) is
issued. -/
theorem invalidInput_C9 (nTeams : Nat) (path : List String)
    (h : path = ["calculate"] ∨ (∃ x, path = ["calculate", x]) ∨
      path = ["regional", "rankings"]) :
    statsRouterOps nTeams path = [] := by
  rcases h with h | ⟨x, h⟩ | h <;> subst h <;> rfl

/-- C9, witness: a `calculate` request carrying only a team identifier issues no
Record Store request. -/
theorem invalidInput_C9_witness :
    ((["calculate", "5"] : List String) = ["calculate"] ∨
      (∃ x, (["calculate", "5"] : List String) = ["calculate", x]) ∨
      (["calculate", "5"] : List String) = ["regional", "rankings"]) ∧
    statsRouterOps 4 ["calculate", "5"] = [] :=
  ⟨Or.inr (Or.inl ⟨"5", rfl⟩),
   invalidInput_C9 4 ["calculate", "5"] (Or.inr (Or.inl ⟨"5", rfl⟩))⟩

/-- C4, code bug: the match CRUD handlers never touch the three aggregate tables.
Each of create, update and delete leaves `team_stats_percentage`,
`team_stats_fraction` and `team_rankings` exactly as they were, because they call
the router-local placeholder (which writes a single `taxi_rate` entry into the
separate `team_statistics` table) instead of the statistics module's aggregator;
after creating a first match the aggregate rows are still absent, although a real
recompute over the same set would have written them. -/
theorem matchRoutes_C4_bug :
    (∀ (m : MatchRow) (s : MatchStore), (createMatchHandler m s).agg = s.agg) ∧
    (∀ (i : Nat) (m : MatchRow) (s : MatchStore), (updateMatchHandler i m s).agg = s.agg) ∧
    (∀ (i : Nat) (s : MatchStore), (deleteMatchHandler i s).agg = s.agg) ∧
    (createMatchHandler blankMatch emptyMatchStore).agg.perc = none ∧
    (createMatchHandler blankMatch emptyMatchStore).agg.rank = none ∧
    (calculateTeamStatistics 0 [blankMatch] emptyAgg).perc ≠ none ∧
    ((createMatchHandler blankMatch emptyMatchStore).team_statistics.map
      (fun r => r.stat_name)) = some "taxi_rate" ∧
    ((createMatchHandler blankMatch emptyMatchStore).team_statistics.map
      (fun r => r.stat_fraction)) = some "0/1" := by
  refine ⟨fun m s => rfl, fun i m s => rfl, fun i s => rfl, rfl, rfl, ?_, rfl, rfl⟩
  simp [calculateTeamStatistics]

end Scouting
